import Mathlib

/-
Shallow embedding of the CoreSnake repository:
  * src/game/SnakeGame.ts   (grid simulation: SnakeGame)
  * src/unnamed/part_001    (QLearningAgent and the shared type declarations)

Ambient JavaScript randomness (Math.random) is modelled by explicit oracle
values threaded into each operation: each call site of Math.random in the
source corresponds to one oracle field.  The procedural wall hash of
getLevelWalls (a float computation `abs(sin(seed + i*12.9898 + j*78.233) *
43758.5453) % 1`) is modelled as an abstract function parameter producing a
rational in place of the double; all other numeric constants of the source
are exact decimal fractions and are embedded as rationals.
JavaScript NaN (reachable only through parseFloat/parseInt in
QLearningAgent.loadFromStorage) is modelled by `Option`: `none` is NaN, and
every comparison with `none` is false, as in JavaScript.
-/

section RatKernelEval

attribute [local semireducible] Rat.mul Rat.add Rat.sub Rat.inv

namespace CoreSnake

/-- Cell coordinate, `{x, y}` in the source types. -/
structure Point where
  x : Int
  y : Int
deriving DecidableEq

inductive Direction
  | UP | DOWN | LEFT | RIGHT
deriving DecidableEq

inductive ItemType
  | GOLD | SCISSORS | ICE
deriving DecidableEq

/-- `SpecialItem` of the source types: a transient item with expiry step. -/
structure SpecialItem where
  point : Point
  type : ItemType
  expires : Nat
deriving DecidableEq

/-- `GameState` of the source types. `portalPoint : Point | null` becomes an
`Option`. -/
structure GameState where
  snake : List Point
  food : Point
  specialItems : List SpecialItem
  walls : List Point
  score : Nat
  level : Nat
  itemsCollectedInLevel : Nat
  isGameOver : Bool
  steps : Nat
  slowEffectSteps : Nat
  portalOpen : Bool
  portalPoint : Option Point
deriving DecidableEq

def GRID_SIZE : Int := 30

def LEVEL_GOAL : Nat := 10

def maxSteps : Nat := 3000

/-- Lookup in the `wallMap` 2D boolean array, which `updateWallMap` fills from
`state.walls` (walls outside the grid are skipped when the map is built; the
generated walls are always inside the grid). -/
def wallMapAt (walls : List Point) (x y : Int) : Bool :=
  walls.any fun w =>
    decide (0 ≤ w.x) && decide (w.x < GRID_SIZE) && decide (0 ≤ w.y) &&
    decide (w.y < GRID_SIZE) && w == Point.mk x y

/-- `SnakeGame.isPointWall`: out-of-bounds counts as wall, otherwise the
wallMap decides. -/
def isPointWall (walls : List Point) (x y : Int) : Bool :=
  if x < 0 || GRID_SIZE ≤ x || y < 0 || GRID_SIZE ≤ y then true
  else wallMapAt walls x y

/-- The hash abstracting the float expression
`abs(sin(level*1.618 + i*12.9898 + j*78.233) * 43758.5453) % 1` of
`getLevelWalls` (arguments: level, x, y). -/
def Hash : Type := Nat → Int → Int → ℚ

/-- The wall density of `getLevelWalls` for levels ≥ 4:
`min(0.15, 0.05 + level * 0.0001)`. -/
def wallDensity (level : Nat) : ℚ :=
  min (15 / 100) (5 / 100 + (level : ℚ) * (1 / 10000))

/-- `SnakeGame.getLevelWalls`: level 1 none, level 2 a ring with gaps,
level 3 a cross, level ≥ 4 procedural by hash threshold outside the
`|i - 15| < 3 && |j - 15| < 3` spawn zone. -/
def getLevelWalls (h : Hash) (level : Nat) : List Point :=
  if level = 2 then
    (List.range 10).flatMap fun k =>
      let i : Int := 10 + k
      [Point.mk i 10, Point.mk i 20] ++
        (if 10 < i ∧ i < 20 ∧ i ≠ 15 then [Point.mk 10 i, Point.mk 20 i] else [])
  else if level = 3 then
    (List.range 12).flatMap fun k =>
      let i : Int := k
      [Point.mk 15 i, Point.mk 15 (GRID_SIZE - i - 1),
       Point.mk i 15, Point.mk (GRID_SIZE - i - 1) 15]
  else if 4 ≤ level then
    (List.range 30).flatMap fun (i : Nat) =>
      (List.range 30).filterMap fun (j : Nat) =>
        if |(i : Int) - 15| < 3 ∧ |(j : Int) - 15| < 3 then none
        else if h level i j < wallDensity level then some (Point.mk i j)
        else none
  else []

/-- `SnakeGame.getRandomEmptyPoint`: scan the stream of random candidate
cells, skipping cells on the wallMap, the snake, or the other items; give up
after 500 failed attempts (or when the modelled stream runs dry) with the
fixed fallback `(0,0)`. -/
def getRandomEmptyPoint (walls snake : List Point) (otherItems : List SpecialItem) :
    List Point → Nat → Point
  | [], _ => Point.mk 0 0
  | p :: rest, attempts =>
    if 500 ≤ attempts then Point.mk 0 0
    else if wallMapAt walls p.x p.y || snake.any (· == p) ||
        otherItems.any (·.point == p) then
      getRandomEmptyPoint walls snake otherItems rest (attempts + 1)
    else p

/-- Fresh episode state of `getInitialState` combined with the food placement
performed by `updateWallMap` (the constructor path).  `foodCands` is the
random candidate stream for the initial food. -/
def mkGame (h : Hash) (level : Nat) (foodCands : List Point) : GameState :=
  let snake := [Point.mk 15 15, Point.mk 15 16, Point.mk 15 17]
  let walls := getLevelWalls h level
  { snake := snake
    food := getRandomEmptyPoint walls snake [] foodCands 0
    specialItems := []
    walls := walls
    score := 0
    level := level
    itemsCollectedInLevel := 0
    isGameOver := false
    steps := 0
    slowEffectSteps := 0
    portalOpen := false
    portalPoint := none }

/-- Oracle for one `step` call: one field per Math.random use, plus the wall
hash needed if the step advances the level. -/
structure StepOracle where
  hash : Hash
  portalCands : List Point
  foodCands : List Point
  levelFoodCands : List Point
  spawnRoll : ℚ
  typeIdx : Fin 3
  itemCands : List Point

def itemTypeOf (i : Fin 3) : ItemType :=
  [ItemType.GOLD, ItemType.SCISSORS, ItemType.ICE].get ⟨i.val, i.isLt⟩

/-- The candidate new head: current head plus the unit vector of the
direction. The head of an empty snake is modelled as `(0,0)` (unreachable in
the source, where the body always has at least one segment). -/
def candidateHead (s : GameState) (d : Direction) : Point :=
  let head := s.snake.headD (Point.mk 0 0)
  match d with
  | .UP => Point.mk head.x (head.y - 1)
  | .DOWN => Point.mk head.x (head.y + 1)
  | .LEFT => Point.mk (head.x - 1) head.y
  | .RIGHT => Point.mk (head.x + 1) head.y

/-- The death check of `step` (evaluated on the state whose step counter was
already incremented): out of bounds, wall, body overlap, or exhausted step
budget `maxSteps + score * 50`. -/
def dead (s : GameState) (head : Point) : Bool :=
  decide (head.x < 0) || decide (GRID_SIZE ≤ head.x) ||
  decide (head.y < 0) || decide (GRID_SIZE ≤ head.y) ||
  wallMapAt s.walls head.x head.y ||
  s.snake.any (· == head) ||
  decide (maxSteps + s.score * 50 < s.steps)

/-- The portal check of `step`: portal open, portal cell non-null and equal
to the candidate head. -/
def portalCond (s : GameState) (head : Point) : Bool :=
  s.portalOpen && s.portalPoint.any (· == head)

/-- `SnakeGame.advanceLevel` (which ends by calling `updateWallMap`, placing
a fresh food via the random stream `foodCands`). -/
def advanceLevel (h : Hash) (foodCands : List Point) (s : GameState) : GameState :=
  let level := s.level + 1
  let walls := getLevelWalls h level
  let snake := [Point.mk 15 15, Point.mk 15 16, Point.mk 15 17]
  { s with
    level := level
    itemsCollectedInLevel := 0
    portalOpen := false
    portalPoint := none
    walls := walls
    specialItems := []
    steps := 0
    snake := snake
    food := getRandomEmptyPoint walls snake [] foodCands 0 }

/-- The step-counter increment and slow-effect decrement performed at the top
of a non-terminal `step`. -/
def tick (s : GameState) : GameState :=
  { s with
    steps := s.steps + 1
    slowEffectSteps := if 0 < s.slowEffectSteps then s.slowEffectSteps - 1
      else s.slowEffectSteps }

/-- The body of `step` after the terminal early return and the counter
updates: death check, portal check, move, item pickup, goal consumption,
periodic item spawn, expiry, commit.  Returns (reward, new state). -/
def stepMain (o : StepOracle) (d : Direction) (s : GameState) : ℚ × GameState :=
  let head := candidateHead s d
  if dead s head then (-100, { s with isGameOver := true })
  else if portalCond s head then (250, advanceLevel o.hash o.levelFoodCands s)
  else
    let newSnake0 := head :: s.snake
    let reward0 : ℚ := -(5 / 100)
    let pickedIdx := s.specialItems.findIdx? (·.point == head)
    let afterItem : GameState × ℚ × List Point :=
      match pickedIdx with
      | none => (s, reward0, newSnake0)
      | some i =>
        let item := s.specialItems.getD i ⟨Point.mk 0 0, ItemType.GOLD, 0⟩
        let items' := s.specialItems.eraseIdx i
        match item.type with
        | .GOLD => ({ s with score := s.score + 15, specialItems := items' },
            60, newSnake0)
        | .SCISSORS =>
          let reduceAmount := newSnake0.length - 5
          let k := min 3 reduceAmount
          ({ s with score := s.score + 5, specialItems := items' },
            40, newSnake0.take (newSnake0.length - k))
        | .ICE =>
          ({ s with score := s.score + 2, slowEffectSteps := 20,
                    specialItems := items' }, 15, newSnake0)
    let s1 := afterItem.1
    let reward1 := afterItem.2.1
    let snake1 := afterItem.2.2
    let afterFood : GameState × ℚ × List Point :=
      if head == s1.food then
        let s2 := { s1 with score := s1.score + 1,
                            itemsCollectedInLevel := s1.itemsCollectedInLevel + 1 }
        let s3 :=
          if LEVEL_GOAL ≤ s2.itemsCollectedInLevel ∧ s2.portalOpen = false then
            { s2 with portalOpen := true,
                      portalPoint :=
                        some (getRandomEmptyPoint s2.walls snake1 s2.specialItems
                          o.portalCands 0) }
          else s2
        ({ s3 with food := getRandomEmptyPoint s3.walls snake1 s3.specialItems
                             o.foodCands 0 }, 30, snake1)
      else (s1, reward1, snake1.dropLast)
    let s4 := afterFood.1
    let reward := afterFood.2.1
    let snake2 := afterFood.2.2
    let s5 :=
      if s4.steps % 75 = 0 ∧ o.spawnRoll < 3 / 10 ∧ s4.specialItems.length < 3 then
        { s4 with specialItems := s4.specialItems ++
            [⟨getRandomEmptyPoint s4.walls snake2 s4.specialItems o.itemCands 0,
              itemTypeOf o.typeIdx, s4.steps + 150⟩] }
      else s4
    let s6 := { s5 with specialItems := s5.specialItems.filter
                          (fun it => decide (s5.steps < it.expires)),
                        snake := snake2 }
    (reward, s6)

/-- `SnakeGame.step`: fixed −20 and no state change once terminal, otherwise
tick the counters and run the main step body. -/
def step (o : StepOracle) (d : Direction) (s : GameState) : ℚ × GameState :=
  if s.isGameOver then (-20, s)
  else stepMain o d (tick s)

/-- The cell-blocking test of `QLearningAgent.getStateString`: bounds check,
then `isPointWall`, then a scan of the body segments. -/
def isBlocking (s : GameState) (x y : Int) : Bool :=
  decide (x < 0) || decide (GRID_SIZE ≤ x) || decide (y < 0) ||
  decide (GRID_SIZE ≤ y) || isPointWall s.walls x y ||
  s.snake.any (fun p => p.x == x && p.y == y)

def boolDigit (b : Bool) : String := if b then "1" else "0"

/-- `QLearningAgent.getStateString`: the discrete fingerprint, concatenating
the target's relative direction, the 1-step and 2-step blocked flags in the
four cardinal directions, and the heading.  The non-null assertion
`portalPoint!` of the source is modelled by an arbitrary default. -/
def getStateString (s : GameState) : String :=
  let head := s.snake.headD (Point.mk 0 0)
  let target := if s.portalOpen then s.portalPoint.getD (Point.mk 0 0) else s.food
  let tX := if target.x < head.x then "L" else if head.x < target.x then "R" else "C"
  let tY := if target.y < head.y then "U" else if head.y < target.y then "D" else "C"
  let dU := boolDigit (isBlocking s head.x (head.y - 1))
  let dD := boolDigit (isBlocking s head.x (head.y + 1))
  let dL := boolDigit (isBlocking s (head.x - 1) head.y)
  let dR := boolDigit (isBlocking s (head.x + 1) head.y)
  let dU2 := boolDigit (isBlocking s head.x (head.y - 2))
  let dD2 := boolDigit (isBlocking s head.x (head.y + 2))
  let dL2 := boolDigit (isBlocking s (head.x - 2) head.y)
  let dR2 := boolDigit (isBlocking s (head.x + 2) head.y)
  let heading :=
    if 1 < s.snake.length then
      let neck := s.snake.getD 1 (Point.mk 0 0)
      if neck.x < head.x then "R"
      else if head.x < neck.x then "L"
      else if neck.y < head.y then "D"
      else if head.y < neck.y then "U"
      else "N"
    else "N"
  tX ++ tY ++ dU ++ dD ++ dL ++ dR ++ dU2 ++ dD2 ++ dL2 ++ dR2 ++ heading

/-- The agent hyperparameters of `QLearningAgent` (exact decimals). -/
def alpha : ℚ := 25 / 100

def gammaQ : ℚ := 95 / 100

def epsilonMin : ℚ := 1 / 100

def epsilonDecay : ℚ := 999997 / 1000000

/-- Agent state.  The Q-table is the insertion-ordered JS `Map` as an
association list; `epsilon` and `totalStepsEver` are `Option`-valued because
`loadFromStorage` can assign them the NaN result of `parseFloat`/`parseInt`
(`none` models NaN). -/
structure Agent where
  qTable : List (String × List ℚ)
  epsilon : Option ℚ
  totalReward : ℚ
  totalStepsEver : Option Int
  game : GameState
deriving DecidableEq

/-- `Map.get` on the value table. -/
def qLookup (t : List (String × List ℚ)) (k : String) : Option (List ℚ) :=
  (t.find? (fun e => e.1 == k)).map (·.2)

/-- `QLearningAgent.getQValues`: return the stored vector, or insert and
return a fresh all-zero vector when the fingerprint is unseen. -/
def getQValues (a : Agent) (st : String) : List ℚ × Agent :=
  match qLookup a.qTable st with
  | some q => (q, a)
  | none => ([0, 0, 0, 0], { a with qTable := a.qTable ++ [(st, [0, 0, 0, 0])] })

/-- `QLearningAgent.getCurrentStateQValues`. -/
def getCurrentStateQValues (a : Agent) : List ℚ × Agent :=
  getQValues a (getStateString a.game)

/-- JS `r < e` where `e` may be NaN (`none`): false on NaN. -/
def ltOpt (r : ℚ) : Option ℚ → Bool
  | none => false
  | some e => decide (r < e)

/-- JS `e > m` where `e` may be NaN (`none`): false on NaN. -/
def gtOpt : Option ℚ → ℚ → Bool
  | none, _ => false
  | some e, m => decide (m < e)

/-- The greedy scan of `chooseAction`: start at index 0, replace on strictly
larger value, so ties keep the lowest index. -/
def argmaxIdx (q : List ℚ) : Nat :=
  (([1, 2, 3] : List Nat).foldl
    (fun acc i =>
      match q.get? i with
      | some v => if acc.2 < v then (i, v) else acc
      | none => acc)
    (0, q.getD 0 0)).1

/-- Oracle for one agent decision: the exploration roll, the random action,
and the oracle of the underlying simulation step. -/
structure AgentOracle where
  actionRoll : ℚ
  randomAction : Fin 4
  stepOracle : StepOracle

/-- `QLearningAgent.chooseAction`: explore uniformly with probability
epsilon, otherwise exploit the stored values (inserting a zero vector for an
unseen fingerprint). -/
def chooseAction (o : AgentOracle) (a : Agent) (st : String) : Nat × Agent :=
  if ltOpt o.actionRoll a.epsilon then (o.randomAction.val, a)
  else
    let qa := getQValues a st
    (argmaxIdx qa.1, qa.2)

/-- The `directions` array of `QLearningAgent.update`. -/
def dirOf : Nat → Direction
  | 0 => .UP
  | 1 => .DOWN
  | 2 => .LEFT
  | _ => .RIGHT

def manhattan (p q : Point) : Int := |p.x - q.x| + |p.y - q.y|

/-- `Math.max(...)` over the value vector (always 4 entries in the source;
the empty case is unreachable there). -/
def maxOf : List ℚ → ℚ
  | [] => 0
  | h :: t => t.foldl max h

/-- The in-place write `currentQValues[action] += ...` seen through the map:
update the vector stored at the key. -/
def setQ (t : List (String × List ℚ)) (k : String) (i : Nat) (v : ℚ) :
    List (String × List ℚ) :=
  t.map fun e => if e.1 == k then (e.1, e.2.set i v) else e

/-- `QLearningAgent.update`: one decision.  Fingerprint, record the distance
to the active target, choose an action, step the simulation, shape the
reward by the distance change measured against the target captured before
the move, accumulate counters, apply the one-step temporal-difference
update, and decay epsilon when above the floor. -/
def update (o : AgentOracle) (a : Agent) : Agent :=
  if a.game.isGameOver then a
  else
    let st := getStateString a.game
    let target := if a.game.portalOpen then a.game.portalPoint.getD (Point.mk 0 0)
      else a.game.food
    let distBefore := manhattan (a.game.snake.headD (Point.mk 0 0)) target
    let ca := chooseAction o a st
    let sr := step o.stepOracle (dirOf ca.1) ca.2.game
    let a2 := { ca.2 with game := sr.2 }
    let reward :=
      if a2.game.isGameOver = false then
        let distAfter := manhattan (a2.game.snake.headD (Point.mk 0 0)) target
        if distAfter < distBefore then sr.1 + 8 / 10
        else if distBefore < distAfter then sr.1 - 8 / 10
        else sr.1
      else sr.1
    let a3 := { a2 with totalReward := a2.totalReward + reward,
                        totalStepsEver := a2.totalStepsEver.map (· + 1) }
    let nq := getQValues a3 (getStateString a3.game)
    let maxNextQ := maxOf nq.1
    let cq := getQValues nq.2 st
    let oldQ := cq.1.getD ca.1 0
    let newQ := oldQ + alpha * (reward + gammaQ *
      (if a3.game.isGameOver then 0 else maxNextQ) - oldQ)
    let a5 := { cq.2 with qTable := setQ cq.2.qTable st ca.1 newQ }
    if gtOpt a5.epsilon epsilonMin then
      { a5 with epsilon := a5.epsilon.map (· * epsilonDecay) }
    else a5

/-- The outcome of `JSON.parse` on the persisted value table: either the
parse throws (malformed) or yields the entries that `Object.entries` and the
`Map` constructor turn into the table. -/
inductive TableParse
  | malformed
  | parsed (entries : List (String × List ℚ))
deriving DecidableEq

/-- A persisted payload as `loadFromStorage` sees it, each field abstracted
to its parse outcome.  The outer `Option` is key absence (or the empty,
falsy string); for the scalars the inner `Option` is the
`parseFloat`/`parseInt` result, `none` being NaN. -/
structure StoredPayload where
  table : Option TableParse
  eps : Option (Option ℚ)
  steps : Option (Option Int)
deriving DecidableEq

/-- `QLearningAgent.loadFromStorage`: the malformed table is caught (the
current table is kept), while present scalar strings are assigned whatever
`parseFloat`/`parseInt` produced, NaN included. -/
def loadFromStorage (p : StoredPayload) (a : Agent) : Agent :=
  let a1 :=
    match p.table with
    | none => a
    | some .malformed => a
    | some (.parsed entries) => { a with qTable := entries }
  let a2 :=
    match p.eps with
    | none => a1
    | some v => { a1 with epsilon := v }
  match p.steps with
  | none => a2
  | some v => { a2 with totalStepsEver := v }

/-- The field values the `QLearningAgent` constructor sets before calling
`loadFromStorage`. -/
def initAgent (g : GameState) : Agent :=
  { qTable := [], epsilon := some 1, totalReward := 0, totalStepsEver := some 0,
    game := g }

/-- The `QLearningAgent` constructor: fresh fields, then restore. -/
def mkAgent (p : StoredPayload) (g : GameState) : Agent :=
  loadFromStorage p (initAgent g)

/-- The constant-zero instantiation of the wall hash, used to build concrete
states (for levels ≤ 3 the hash is never consulted). -/
def zeroHash : Hash := fun _ _ _ => 0

/-- A step oracle whose rolls refuse the optional random events. -/
def noRandOracle : StepOracle :=
  { hash := zeroHash, portalCands := [], foodCands := [], levelFoodCands := [],
    spawnRoll := 1, typeIdx := 0, itemCands := [] }

/-- A concrete terminal episode state: the fresh level-1 game with the
terminal flag forced. -/
def terminalFixture : GameState :=
  { mkGame zeroHash 1 [] with isGameOver := true }

/-- Fingerprint fixture: fresh level-1 game carrying one gold item and some
counters. -/
def fpFixtureA : GameState :=
  { mkGame zeroHash 1 [] with
      steps := 5, score := 7,
      specialItems := [⟨Point.mk 2 2, ItemType.GOLD, 99⟩] }

/-- Fingerprint fixture differing from `fpFixtureA` only in the step counter,
the score, and the item expiry step. -/
def fpFixtureB : GameState :=
  { mkGame zeroHash 1 [] with
      steps := 6, score := 0,
      specialItems := [⟨Point.mk 2 2, ItemType.GOLD, 11⟩] }

/-- A fresh agent over the fresh level-1 game (empty value table). -/
def telemetryAgent : Agent := initAgent (mkGame zeroHash 1 [])

/-- The fresh level-1 game used as the ambient game of restored agents. -/
def loadGame : GameState := mkGame zeroHash 1 []

/-- An agent whose exploration rate sits just above the floor
(0.01000001), as a restored training run can produce. -/
def epsAgent : Agent :=
  { initAgent loadGame with epsilon := some (1000001 / 100000000) }

/-- A decision oracle that explores with action 0 (UP) and refuses the
optional random simulation events. -/
def plainAOracle : AgentOracle :=
  { actionRoll := 0, randomAction := 0, stepOracle := noRandOracle }

/-- Run a scripted sequence of steps, one oracle and direction per step,
keeping only the evolving state. -/
def runScript (s : GameState) : List (StepOracle × Direction) → GameState
  | [] => s
  | (o, d) :: rest => runScript (step o d s).2 rest

/-- The four-step movement cycle RIGHT, DOWN, LEFT, UP indexed from 0: a
length-3 body repeating it walks a 2-by-2 square forever. -/
def cyc4 (n : Nat) : Direction :=
  [Direction.RIGHT, Direction.DOWN, Direction.LEFT, Direction.UP].getD (n % 4)
    Direction.UP

/-- Oracle of the 75th scripted step: the spawn roll succeeds, the item type
is GOLD, and the single spawn candidate is the goal cell (13,15). -/
def spawnOnGoalOracle : StepOracle :=
  { noRandOracle with spawnRoll := 0, itemCands := [Point.mk 13 15] }

/-- 75 scripted steps from the fresh level-1 game whose goal sits at
(13,15): 74 cycling moves, then the move on which the periodic item spawn
fires with the goal cell as its candidate. -/
def c8Script : List (StepOracle × Direction) :=
  ((List.range 74).map fun i => (noRandOracle, cyc4 i)) ++
    [(spawnOnGoalOracle, cyc4 74)]

/-- The episode state reached by `c8Script`: live, with a transient item
sitting on the goal cell. -/
def c8State : GameState :=
  runScript (mkGame zeroHash 1 [Point.mk 13 15]) c8Script

/-- Two more scripted moves walking the head next to the goal cell. -/
def c2Pre : GameState :=
  runScript c8State
    [(noRandOracle, Direction.UP), (noRandOracle, Direction.LEFT)]

/-- Oracle for the step that eats the goal: relocation candidate (0,0). -/
def relocOracle : StepOracle :=
  { noRandOracle with foodCands := [Point.mk 0 0] }

/-- Fixture for the goal-consumption witness: head one cell above the goal,
no items, empty board. -/
def goalFixture : GameState :=
  { snake := [Point.mk 15 15, Point.mk 15 16, Point.mk 15 17]
    food := Point.mk 15 14
    specialItems := []
    walls := []
    score := 0
    level := 1
    itemsCollectedInLevel := 0
    isGameOver := false
    steps := 0
    slowEffectSteps := 0
    portalOpen := false
    portalPoint := none }

/-- `goalFixture` with one far-away transient item, for the goal-relocation
witness. -/
def goalItemFixture : GameState :=
  { goalFixture with specialItems := [⟨Point.mk 10 10, ItemType.GOLD, 500⟩] }

/-- Oracle for the goal-consumption witness: goal relocation candidate
(5,5), no item spawn. -/
def goalOracle : StepOracle :=
  { noRandOracle with foodCands := [Point.mk 5 5] }

/-- Fixture for the scissors claim: a length-5 body about to step onto a
SCISSORS item, with the goal elsewhere. -/
def scissorsFixture : GameState :=
  { snake := [Point.mk 10 10, Point.mk 10 11, Point.mk 10 12, Point.mk 10 13,
      Point.mk 10 14]
    food := Point.mk 20 20
    specialItems := [⟨Point.mk 10 9, ItemType.SCISSORS, 400⟩]
    walls := []
    score := 0
    level := 1
    itemsCollectedInLevel := 0
    isGameOver := false
    steps := 0
    slowEffectSteps := 0
    portalOpen := false
    portalPoint := none }

/-- The active navigation target of an episode state: the portal cell when
the portal is open, the goal otherwise (the expression of lines 95 and 26 of
the agent; the non-null assertion is modelled by a default). -/
def activeTarget (g : GameState) : Point :=
  if g.portalOpen then g.portalPoint.getD (Point.mk 0 0) else g.food

/-- Decision oracle of the stale-target scenario: explore with UP, relocate
the goal to (5,5). -/
def shapeOracle : AgentOracle :=
  { actionRoll := 0, randomAction := 0, stepOracle := goalOracle }

/-- Fresh agent sitting one cell above its goal. -/
def shapeAgent : Agent := initAgent goalFixture

end CoreSnake

namespace CoreSnake

/-- C1: a step taken in a terminal state returns the fixed reward −20 and
returns the state with every field unchanged, hence is idempotent. -/
theorem step_terminal_noop (o : StepOracle) (d : Direction) (s : GameState)
    (h : s.isGameOver = true) : step o d s = (-20, s) := by
  simp [step, h]

/-- Witness for C1 at a concrete terminal state. -/
theorem step_terminal_noop_witness :
    terminalFixture.isGameOver = true ∧
      step noRandOracle Direction.UP terminalFixture = (-20, terminalFixture) :=
  ⟨rfl, step_terminal_noop noRandOracle Direction.UP terminalFixture rfl⟩

/-- C6: the fingerprint is a pure function of the episode state that reads
only the body, the food, the walls, and the portal fields; two states that
agree on those five fields (in particular, two identical states, or two
states differing only in the step counter, the score, or the item expiry
steps) produce the same fingerprint string. -/
theorem getStateString_pure (s1 s2 : GameState)
    (hsn : s1.snake = s2.snake) (hf : s1.food = s2.food)
    (hw : s1.walls = s2.walls) (hpo : s1.portalOpen = s2.portalOpen)
    (hpp : s1.portalPoint = s2.portalPoint) :
    getStateString s1 = getStateString s2 := by
  unfold getStateString isBlocking isPointWall
  rw [hsn, hf, hw, hpo, hpp]

/-- Witness for C6: two concrete states differing only in step counter,
score, and item expiry fingerprint identically. -/
theorem getStateString_pure_witness :
    fpFixtureA ≠ fpFixtureB ∧ getStateString fpFixtureA = getStateString fpFixtureB :=
  ⟨by decide, getStateString_pure fpFixtureA fpFixtureB rfl rfl rfl rfl rfl⟩

/-- C10 counterexample: querying the current value vector on a fresh agent
(whose fingerprint has no table entry) mutates the agent, growing the value
table from 0 to 1 entries, contradicting the read-only claim. -/
theorem getCurrentStateQValues_mutates :
    (getCurrentStateQValues telemetryAgent).2 ≠ telemetryAgent ∧
      telemetryAgent.qTable.length = 0 ∧
      (getCurrentStateQValues telemetryAgent).2.qTable.length = 1 := by
  decide

/-- C10 amended: querying the current value vector returns the stored vector
and leaves the agent unchanged when the present fingerprint has an entry;
when it has none, it lazily inserts (and returns) a fresh all-zero vector,
appending one entry to the value table. -/
theorem getCurrentStateQValues_lazy (a : Agent) :
    (∀ q, qLookup a.qTable (getStateString a.game) = some q →
      getCurrentStateQValues a = (q, a)) ∧
    (qLookup a.qTable (getStateString a.game) = none →
      getCurrentStateQValues a =
        ([0, 0, 0, 0],
          { a with qTable := a.qTable ++ [(getStateString a.game, [0, 0, 0, 0])] })) := by
  constructor
  · intro q hq
    simp [getCurrentStateQValues, getQValues, hq]
  · intro hq
    simp [getCurrentStateQValues, getQValues, hq]

/-- Witness for the C10 amendment on the fresh agent: the fingerprint is
unseen and the query appends exactly its zero entry. -/
theorem getCurrentStateQValues_lazy_witness :
    qLookup telemetryAgent.qTable (getStateString telemetryAgent.game) = none ∧
      getCurrentStateQValues telemetryAgent =
        ([0, 0, 0, 0],
          { telemetryAgent with qTable := telemetryAgent.qTable ++
              [(getStateString telemetryAgent.game, [0, 0, 0, 0])] }) :=
  ⟨rfl, (getCurrentStateQValues_lazy telemetryAgent).2 rfl⟩

/-- C9 amended: restoring from a persisted payload is total (never crashes)
and characterised field by field: a missing or malformed table leaves the
table at its default (empty); present scalar strings are always assigned
their parse result, so a scalar that parses to NaN (`none`) overwrites the
default instead of the default being kept. -/
theorem loadFromStorage_behavior (p : StoredPayload) (g : GameState) :
    (mkAgent p g).qTable =
      (match p.table with
        | some (.parsed es) => es
        | _ => []) ∧
    (mkAgent p g).epsilon = (match p.eps with | none => some 1 | some v => v) ∧
    (mkAgent p g).totalStepsEver =
      (match p.steps with | none => some 0 | some v => v) ∧
    (mkAgent p g).totalReward = 0 ∧ (mkAgent p g).game = g := by
  obtain ⟨t, e, st⟩ := p
  rcases t with _ | t <;> [skip; rcases t with _ | es] <;>
    rcases e with _ | e <;> rcases st with _ | st <;>
    simp [mkAgent, loadFromStorage, initAgent]

theorem getQValues_epsilon (a : Agent) (st : String) :
    ((getQValues a st).2).epsilon = a.epsilon := by
  unfold getQValues
  cases qLookup a.qTable st <;> rfl

theorem chooseAction_epsilon (o : AgentOracle) (a : Agent) (st : String) :
    ((chooseAction o a st).2).epsilon = a.epsilon := by
  unfold chooseAction
  by_cases h : ltOpt o.actionRoll a.epsilon = true <;>
    simp [h, getQValues_epsilon]

/-- The net effect of one `update` call on the exploration rate. -/
theorem update_epsilon (o : AgentOracle) (a : Agent) :
    (update o a).epsilon =
      if a.game.isGameOver then a.epsilon
      else if gtOpt a.epsilon epsilonMin then a.epsilon.map (· * epsilonDecay)
      else a.epsilon := by
  unfold update
  by_cases h : a.game.isGameOver = true
  · simp [h]
  · simp only [Bool.not_eq_true] at h
    cases hgt : gtOpt a.epsilon epsilonMin with
    | false => simp [h, getQValues_epsilon, chooseAction_epsilon, hgt]
    | true => simp [h, getQValues_epsilon, chooseAction_epsilon, hgt]

/-- C4 amended: over one decision with a numeric exploration rate, the rate
never increases; the corrected lower bound `epsilonMin * epsilonDecay`
(= 0.00999997, one decay below the configured floor 0.01) is preserved; the
rate is untouched at or below the floor; and the multiplicative decay is
applied exactly when the episode was not already terminal and the rate is
above the floor. -/
theorem update_epsilon_monotone (o : AgentOracle) (a : Agent) (e : ℚ)
    (he : a.epsilon = some e) :
    ∃ e2, (update o a).epsilon = some e2 ∧ e2 ≤ e ∧
      (epsilonMin * epsilonDecay ≤ e → epsilonMin * epsilonDecay ≤ e2) ∧
      (e ≤ epsilonMin → e2 = e) ∧
      (a.game.isGameOver = false → epsilonMin < e → e2 = e * epsilonDecay) := by
  rw [update_epsilon] at *
  by_cases hg : a.game.isGameOver = true
  · refine ⟨e, ?_⟩
    simp [hg, he]
  · simp only [Bool.not_eq_true] at hg
    by_cases hlt : epsilonMin < e
    · have he0 : (0 : ℚ) ≤ e :=
        le_of_lt (lt_trans (by norm_num [epsilonMin]) hlt)
      have hd1 : epsilonDecay ≤ 1 := by norm_num [epsilonDecay]
      refine ⟨e * epsilonDecay, ?_, ?_, ?_, ?_, ?_⟩
      · simp [hg, he, gtOpt, hlt]
      · calc e * epsilonDecay ≤ e * 1 := mul_le_mul_of_nonneg_left hd1 he0
          _ = e := mul_one e
      · intro _
        have h1 : (0 : ℚ) < epsilonDecay := by norm_num [epsilonDecay]
        have := mul_le_mul_of_nonneg_right (le_of_lt hlt) (le_of_lt h1)
        linarith
      · intro hle
        exact absurd hlt (not_lt.mpr hle)
      · intro _ _
        rfl
    · refine ⟨e, ?_, le_refl e, fun h => h, fun _ => rfl, fun _ h => absurd h hlt⟩
      simp [hg, he, gtOpt, hlt]

/-- Witness for the C4 amendment at the fresh agent (rate 1.0). -/
theorem update_epsilon_monotone_witness :
    ∃ e2, (update plainAOracle (initAgent loadGame)).epsilon = some e2 ∧
      e2 ≤ 1 ∧
      (epsilonMin * epsilonDecay ≤ 1 → epsilonMin * epsilonDecay ≤ e2) ∧
      ((1 : ℚ) ≤ epsilonMin → e2 = 1) ∧
      ((initAgent loadGame).game.isGameOver = false → epsilonMin < 1 →
        e2 = 1 * epsilonDecay) :=
  update_epsilon_monotone plainAOracle (initAgent loadGame) 1 rfl

/-- C4 counterexample: from the rate 0.01000001, strictly above the floor,
one decision decays the rate to 0.0099999799999997, strictly below the
configured floor 0.01 — the rate does drop below the floor. -/
theorem update_epsilon_below_floor :
    gtOpt epsAgent.epsilon epsilonMin = true ∧
      (update plainAOracle epsAgent).epsilon =
        some (999997999997 / 100000000000000) ∧
      (999997999997 / 100000000000000 : ℚ) < epsilonMin := by
  refine ⟨by decide, ?_, by norm_num [epsilonMin]⟩
  rw [update_epsilon]
  decide

/-- C9 counterexample: a payload whose table is malformed and whose scalar
strings parse to NaN leaves the table empty (as claimed) but sets the
exploration rate and lifetime step count to NaN instead of keeping the
defaults 1.0 and 0. -/
theorem loadFromStorage_nan :
    (mkAgent ⟨some .malformed, some none, some none⟩ loadGame).qTable = [] ∧
      (mkAgent ⟨some .malformed, some none, some none⟩ loadGame).epsilon ≠ some 1 ∧
      (mkAgent ⟨some .malformed, some none, some none⟩ loadGame).epsilon = none ∧
      (mkAgent ⟨some .malformed, some none, some none⟩ loadGame).totalStepsEver
        = none := by
  decide

/-- Any accepted pick of `getRandomEmptyPoint` avoids the wallMap, the given
body, and the given items; otherwise the pick is the `(0,0)` fallback. -/
theorem getRandomEmptyPoint_spec (walls snake : List Point)
    (items : List SpecialItem) (cands : List Point) (attempts : Nat) :
    getRandomEmptyPoint walls snake items cands attempts = Point.mk 0 0 ∨
      (wallMapAt walls (getRandomEmptyPoint walls snake items cands attempts).x
          (getRandomEmptyPoint walls snake items cands attempts).y = false ∧
        snake.any (· == getRandomEmptyPoint walls snake items cands attempts)
          = false ∧
        items.any (·.point == getRandomEmptyPoint walls snake items cands attempts)
          = false) := by
  induction cands generalizing attempts with
  | nil => exact Or.inl rfl
  | cons p rest ih =>
    by_cases h5 : 500 ≤ attempts
    · left
      simp [getRandomEmptyPoint, h5]
    · by_cases hocc : (wallMapAt walls p.x p.y || snake.any (· == p) ||
          items.any (·.point == p)) = true
      · have hrec : getRandomEmptyPoint walls snake items (p :: rest) attempts =
            getRandomEmptyPoint walls snake items rest (attempts + 1) := by
          simp [getRandomEmptyPoint, h5, hocc]
        rw [hrec]
        exact ih (attempts + 1)
      · have hres : getRandomEmptyPoint walls snake items (p :: rest) attempts = p := by
          simp only [Bool.not_eq_true] at hocc
          simp [getRandomEmptyPoint, h5, hocc]
        simp only [Bool.not_eq_true, Bool.or_eq_false_iff] at hocc
        rw [hres]
        exact Or.inr ⟨hocc.1.1, hocc.1.2, hocc.2⟩

/-- Closed form of a non-terminal, non-portal `step` that lands exactly on
the goal cell with no transient item on that cell: reward 30, score and
per-level progress up by one, body grown by the prepended head, portal
opened on reaching the level goal, goal relocated from the food candidate
stream, and the periodic spawn/expiry applied as usual. -/
theorem step_goal_closed_form (o : StepOracle) (d : Direction) (s : GameState)
    (hgo : s.isGameOver = false)
    (hdead : dead (tick s) (candidateHead (tick s) d) = false)
    (hportal : portalCond (tick s) (candidateHead (tick s) d) = false)
    (hnoitem : (tick s).specialItems.findIdx?
      (·.point == candidateHead (tick s) d) = none)
    (hfood : candidateHead (tick s) d = s.food) :
    step o d s =
      (30,
        { snake := candidateHead (tick s) d :: s.snake
          food := getRandomEmptyPoint s.walls (candidateHead (tick s) d :: s.snake)
            s.specialItems o.foodCands 0
          specialItems :=
            (if (s.steps + 1) % 75 = 0 ∧ o.spawnRoll < 3 / 10 ∧
                s.specialItems.length < 3 then
              s.specialItems ++
                [⟨getRandomEmptyPoint s.walls
                    (candidateHead (tick s) d :: s.snake) s.specialItems
                    o.itemCands 0,
                  itemTypeOf o.typeIdx, s.steps + 1 + 150⟩]
            else s.specialItems).filter (fun it => decide (s.steps + 1 < it.expires))
          walls := s.walls
          score := s.score + 1
          level := s.level
          itemsCollectedInLevel := s.itemsCollectedInLevel + 1
          isGameOver := false
          steps := s.steps + 1
          slowEffectSteps := if 0 < s.slowEffectSteps then s.slowEffectSteps - 1
            else s.slowEffectSteps
          portalOpen := if LEVEL_GOAL ≤ s.itemsCollectedInLevel + 1 ∧
              s.portalOpen = false then true else s.portalOpen
          portalPoint := if LEVEL_GOAL ≤ s.itemsCollectedInLevel + 1 ∧
              s.portalOpen = false then
              some (getRandomEmptyPoint s.walls
                (candidateHead (tick s) d :: s.snake) s.specialItems
                o.portalCands 0)
            else s.portalPoint }) := by
  have h1 : step o d s = stepMain o d (tick s) := by simp [step, hgo]
  have hbeq : (candidateHead (tick s) d == (tick s).food) = true := by
    have hf : (tick s).food = s.food := rfl
    rw [hf, hfood, beq_self_eq_true]
  rw [h1]
  unfold stepMain
  simp only [hnoitem]
  simp only [hdead, hportal, hbeq, Bool.false_eq_true, if_false, if_true]
  by_cases hpc : LEVEL_GOAL ≤ s.itemsCollectedInLevel + 1 ∧ s.portalOpen = false <;>
    by_cases hsp : (s.steps + 1) % 75 = 0 ∧ o.spawnRoll < 3 / 10 ∧
      s.specialItems.length < 3 <;>
    simp [tick, hpc, hsp, hgo]

/-- C2 amended: a non-terminal, non-portal step landing on the goal cell
with no transient item there yields reward 30, score +1, per-level progress
+1, opens the portal at a selected open cell exactly when progress reaches
the level goal with the portal still closed, and relocates the goal to the
next accepted random candidate, which is an open cell (no wall, body, or
item) unless the bounded search fell back to (0,0). -/
theorem step_goal_consumption (o : StepOracle) (d : Direction) (s : GameState)
    (hgo : s.isGameOver = false)
    (hdead : dead (tick s) (candidateHead (tick s) d) = false)
    (hportal : portalCond (tick s) (candidateHead (tick s) d) = false)
    (hnoitem : (tick s).specialItems.findIdx?
      (·.point == candidateHead (tick s) d) = none)
    (hfood : candidateHead (tick s) d = s.food) :
    (step o d s).1 = 30 ∧
    (step o d s).2.score = s.score + 1 ∧
    (step o d s).2.itemsCollectedInLevel = s.itemsCollectedInLevel + 1 ∧
    (step o d s).2.food = getRandomEmptyPoint s.walls
      (candidateHead (tick s) d :: s.snake) s.specialItems o.foodCands 0 ∧
    ((step o d s).2.food = Point.mk 0 0 ∨
      (wallMapAt s.walls (step o d s).2.food.x (step o d s).2.food.y = false ∧
        (candidateHead (tick s) d :: s.snake).any (· == (step o d s).2.food)
          = false ∧
        s.specialItems.any (·.point == (step o d s).2.food) = false)) ∧
    (step o d s).2.portalOpen = (if LEVEL_GOAL ≤ s.itemsCollectedInLevel + 1 ∧
      s.portalOpen = false then true else s.portalOpen) ∧
    (step o d s).2.portalPoint = (if LEVEL_GOAL ≤ s.itemsCollectedInLevel + 1 ∧
      s.portalOpen = false then
        some (getRandomEmptyPoint s.walls (candidateHead (tick s) d :: s.snake)
          s.specialItems o.portalCands 0)
      else s.portalPoint) := by
  rw [step_goal_closed_form o d s hgo hdead hportal hnoitem hfood]
  exact ⟨rfl, rfl, rfl, rfl,
    getRandomEmptyPoint_spec s.walls _ s.specialItems o.foodCands 0, rfl, rfl⟩

/-- Witness for the C2 amendment: stepping UP from `goalFixture` eats the
goal at (15,14), earns 30, bumps the counters, and relocates the goal to the
candidate (5,5). -/
theorem step_goal_consumption_witness :
    candidateHead (tick goalFixture) Direction.UP = goalFixture.food ∧
    (step goalOracle Direction.UP goalFixture).1 = 30 ∧
    (step goalOracle Direction.UP goalFixture).2.score = goalFixture.score + 1 ∧
    (step goalOracle Direction.UP goalFixture).2.itemsCollectedInLevel =
      goalFixture.itemsCollectedInLevel + 1 ∧
    (step goalOracle Direction.UP goalFixture).2.food = Point.mk 5 5 := by
  have h := step_goal_consumption goalOracle Direction.UP goalFixture rfl
    (by decide) (by decide) (by decide) (by decide)
  refine ⟨by decide, h.1, h.2.1, h.2.2.1, ?_⟩
  rw [h.2.2.2.1]
  decide

set_option maxRecDepth 100000 in
/-- C2 counterexample: `c2Pre` is a live episode state reached from the
fresh level-1 game by 77 legal steps; its goal cell (13,15) carries a GOLD
item, so the goal-eating step LEFT satisfies every premise of the claim
(non-terminal, not a portal entry, head lands on the goal) yet raises the
score by 16, not exactly 1 (reward is still 30). -/
theorem step_goal_score_jump :
    c2Pre.isGameOver = false ∧
    dead (tick c2Pre) (candidateHead (tick c2Pre) Direction.LEFT) = false ∧
    portalCond (tick c2Pre) (candidateHead (tick c2Pre) Direction.LEFT) = false ∧
    candidateHead (tick c2Pre) Direction.LEFT = c2Pre.food ∧
    (step relocOracle Direction.LEFT c2Pre).1 = 30 ∧
    (step relocOracle Direction.LEFT c2Pre).2.score = c2Pre.score + 16 := by
  decide

/-- C8 amended: when a step consumes the goal (no item on that cell), the
relocated goal cell avoids every transient item cell, unless the bounded
random search degenerated to the (0,0) fallback.  (Item spawning, by
contrast, does not exclude the goal cell: see the counterexample.) -/
theorem goal_relocation_avoids_items (o : StepOracle) (d : Direction)
    (s : GameState) (hgo : s.isGameOver = false)
    (hdead : dead (tick s) (candidateHead (tick s) d) = false)
    (hportal : portalCond (tick s) (candidateHead (tick s) d) = false)
    (hnoitem : (tick s).specialItems.findIdx?
      (·.point == candidateHead (tick s) d) = none)
    (hfood : candidateHead (tick s) d = s.food) :
    (step o d s).2.food = Point.mk 0 0 ∨
      s.specialItems.any (·.point == (step o d s).2.food) = false := by
  rw [step_goal_closed_form o d s hgo hdead hportal hnoitem hfood]
  rcases getRandomEmptyPoint_spec s.walls
      (candidateHead (tick s) d :: s.snake) s.specialItems o.foodCands 0 with
    h | h
  · exact Or.inl h
  · exact Or.inr h.2.2

/-- Witness for the C8 amendment: eating the goal of `goalItemFixture`
relocates it to (5,5), away from the item at (10,10). -/
theorem goal_relocation_avoids_items_witness :
    goalItemFixture.specialItems.length = 1 ∧
    ((step goalOracle Direction.UP goalItemFixture).2.food = Point.mk 0 0 ∨
      goalItemFixture.specialItems.any
        (·.point == (step goalOracle Direction.UP goalItemFixture).2.food)
        = false) :=
  ⟨rfl, goal_relocation_avoids_items goalOracle Direction.UP goalItemFixture
    rfl (by decide) (by decide) (by decide) (by decide)⟩

set_option maxRecDepth 100000 in
/-- C8 counterexample: the live episode state `c8State`, reached from the
fresh level-1 game by 75 legal steps, has a transient item on the goal cell:
the item spawn excludes walls, body and other items but not the goal. -/
theorem item_spawned_on_goal :
    c8State.isGameOver = false ∧
      c8State.specialItems.any (·.point == c8State.food) = true := by
  decide

/-- C3 amended: a non-terminal, non-portal step landing on a SCISSORS item
adds 5 to the score (plus 1 more if the goal is consumed on the same step),
returns reward 40 unless overridden by the simultaneous goal reward 30, and
shrinks the prepended body by up to 3 segments with the floor of 5 applied
before the tail drop: if the goal was also consumed the resulting length is
that floored value, but otherwise the composed tail drop removes one more
segment, so a pre-step body of length at least 5 can end at length 4 (never
less). -/
theorem step_scissors (o : StepOracle) (d : Direction) (s : GameState) (i : Nat)
    (hgo : s.isGameOver = false)
    (hdead : dead (tick s) (candidateHead (tick s) d) = false)
    (hportal : portalCond (tick s) (candidateHead (tick s) d) = false)
    (hitem : (tick s).specialItems.findIdx?
      (·.point == candidateHead (tick s) d) = some i)
    (htype : ((tick s).specialItems.getD i
      ⟨Point.mk 0 0, ItemType.GOLD, 0⟩).type = ItemType.SCISSORS) :
    (step o d s).1 = (if candidateHead (tick s) d == s.food then (30 : ℚ) else 40) ∧
    (step o d s).2.score = s.score + 5 +
      (if candidateHead (tick s) d == s.food then 1 else 0) ∧
    (step o d s).2.snake.length =
      (if candidateHead (tick s) d == s.food then
        s.snake.length + 1 - min 3 (s.snake.length + 1 - 5)
      else s.snake.length + 1 - min 3 (s.snake.length + 1 - 5) - 1) ∧
    (5 ≤ s.snake.length →
      5 ≤ s.snake.length + 1 - min 3 (s.snake.length + 1 - 5) ∧
        4 ≤ (step o d s).2.snake.length) := by
  have h1 : step o d s = stepMain o d (tick s) := by simp [step, hgo]
  rw [h1]
  unfold stepMain
  simp only [hitem, htype, hdead, hportal, Bool.false_eq_true, if_false]
  simp only [show (tick s).food = s.food from rfl,
    show (tick s).specialItems = s.specialItems from rfl,
    show (tick s).snake = s.snake from rfl,
    show (tick s).steps = s.steps + 1 from rfl,
    show (tick s).score = s.score from rfl]
  by_cases hf : (candidateHead (tick s) d == s.food) = true
  · simp only [hf, if_true]
    refine ⟨trivial, ?_, ?_, ?_⟩
    · simp [apply_ite GameState.score, ite_self]
    · simp [List.length_take, List.length_cons]
    · intro h5
      refine ⟨by omega, ?_⟩
      simp [List.length_take, List.length_cons]
      omega
  · simp only [Bool.not_eq_true] at hf
    simp only [hf, Bool.false_eq_true, if_false]
    refine ⟨trivial, ?_, ?_, ?_⟩
    · simp [apply_ite GameState.score, ite_self]
    · simp [List.length_take, List.length_cons, List.length_dropLast]
    · intro h5
      refine ⟨by omega, ?_⟩
      simp [List.length_take, List.length_cons, List.length_dropLast]
      omega

/-- Witness for the C3 amendment: from a length-5 body, consuming a SCISSORS
item (goal elsewhere) gives reward 40, score +5, and final body length 4. -/
theorem step_scissors_witness :
    scissorsFixture.snake.length = 5 ∧
    (step noRandOracle Direction.UP scissorsFixture).1 = 40 ∧
    (step noRandOracle Direction.UP scissorsFixture).2.score =
      scissorsFixture.score + 5 ∧
    (step noRandOracle Direction.UP scissorsFixture).2.snake.length = 4 := by
  have h := step_scissors noRandOracle Direction.UP scissorsFixture 0 rfl
    (by decide) (by decide) (by decide) (by decide)
  refine ⟨rfl, ?_, ?_, ?_⟩
  · rw [h.1]; decide
  · rw [h.2.1]; decide
  · rw [h.2.2.1]; decide

/-- C3 counterexample: `scissorsFixture` has body length 5 and a SCISSORS
item on the step destination; after the full step (shrink composed with the
tail drop, no goal consumed) the body length is 4, below the claimed floor
of 5. -/
theorem step_scissors_floor_broken :
    scissorsFixture.isGameOver = false ∧
    5 ≤ scissorsFixture.snake.length ∧
    scissorsFixture.specialItems.findIdx?
      (·.point == candidateHead (tick scissorsFixture) Direction.UP) = some 0 ∧
    (scissorsFixture.specialItems.getD 0
      ⟨Point.mk 0 0, ItemType.GOLD, 0⟩).type = ItemType.SCISSORS ∧
    (step noRandOracle Direction.UP scissorsFixture).2.snake.length = 4 := by
  decide


/-- C7 amended: for every level at least 4 and every hash instantiation, the
procedural obstacle generation protects exactly the 5-by-5 spawn zone
(cells with both coordinates within distance 2 of the spawn (15,15), i.e.
the source test abs < 3), not a 6-by-6 zone; every in-grid cell outside
that zone is blocked exactly when its hash value falls below the density
threshold, the threshold never exceeds 0.15, and it never decreases as the
level rises. -/
theorem getLevelWalls_procedural (h : Hash) (level : Nat) (hlv : 4 ≤ level) :
    (∀ p ∈ getLevelWalls h level, ¬(|p.x - 15| < 3 ∧ |p.y - 15| < 3)) ∧
    (∀ x y : Nat, x < 30 → y < 30 →
      ¬(|(x : Int) - 15| < 3 ∧ |(y : Int) - 15| < 3) →
      (Point.mk x y ∈ getLevelWalls h level ↔ h level x y < wallDensity level)) ∧
    wallDensity level ≤ 15 / 100 ∧
    (∀ l2, level ≤ l2 → wallDensity level ≤ wallDensity l2) := by
  have h2 : ¬(level = 2) := by omega
  have h3 : ¬(level = 3) := by omega
  have hwalls : getLevelWalls h level =
      (List.range 30).flatMap (fun (i : Nat) =>
        (List.range 30).filterMap fun (j : Nat) =>
          if |(i : Int) - 15| < 3 ∧ |(j : Int) - 15| < 3 then none
          else if h level i j < wallDensity level then some (Point.mk i j)
          else none) := by
    simp [getLevelWalls, h2, h3, hlv]
  refine ⟨?_, ?_, ?_, ?_⟩
  · intro p hp
    rw [hwalls] at hp
    simp only [List.mem_flatMap, List.mem_filterMap, List.mem_range] at hp
    obtain ⟨i, hi, j, hj, hsome⟩ := hp
    by_cases hsafe : |(i : Int) - 15| < 3 ∧ |(j : Int) - 15| < 3
    · simp [hsafe] at hsome
    · by_cases hd : h level i j < wallDensity level
      · simp only [hsafe, if_false, hd, if_true, Option.some.injEq] at hsome
        subst hsome
        simpa using hsafe
      · simp [hsafe, hd] at hsome
  · intro x y hx hy hsafe
    constructor
    · intro hmem
      rw [hwalls] at hmem
      simp only [List.mem_flatMap, List.mem_filterMap, List.mem_range] at hmem
      obtain ⟨i, hi, j, hj, hsome⟩ := hmem
      by_cases hsafe2 : |(i : Int) - 15| < 3 ∧ |(j : Int) - 15| < 3
      · simp [hsafe2] at hsome
      · by_cases hd : h level i j < wallDensity level
        · simp only [hsafe2, if_false, hd, if_true, Option.some.injEq,
            Point.mk.injEq] at hsome
          obtain ⟨hxi, hyj⟩ := hsome
          have hix : i = x := by exact_mod_cast hxi
          have hjy : j = y := by exact_mod_cast hyj
          rw [hix, hjy] at hd
          exact hd
        · simp [hsafe2, hd] at hsome
    · intro hd
      rw [hwalls]
      simp only [List.mem_flatMap, List.mem_filterMap, List.mem_range]
      exact ⟨x, hx, y, hy, by simp [hsafe, hd]⟩
  · exact min_le_left _ _
  · intro l2 hl
    unfold wallDensity
    refine min_le_min (le_refl _) (add_le_add_left ?_ _)
    have : (level : ℚ) ≤ (l2 : ℚ) := by exact_mod_cast hl
    nlinarith [this]

/-- Witness for the C7 amendment at level 4 with the constant-zero hash. -/
theorem getLevelWalls_procedural_witness :
    (∀ p ∈ getLevelWalls zeroHash 4, ¬(|p.x - 15| < 3 ∧ |p.y - 15| < 3)) ∧
    (∀ x y : Nat, x < 30 → y < 30 →
      ¬(|(x : Int) - 15| < 3 ∧ |(y : Int) - 15| < 3) →
      (Point.mk x y ∈ getLevelWalls zeroHash 4 ↔ zeroHash 4 x y < wallDensity 4)) ∧
    wallDensity 4 ≤ 15 / 100 ∧
    (∀ l2, 4 ≤ l2 → wallDensity 4 ≤ wallDensity l2) :=
  getLevelWalls_procedural zeroHash 4 (by norm_num)

set_option maxRecDepth 100000 in
/-- C7 counterexample: both cells (12,12) and (18,18) can be blocked at
level 4 (here under the constant-zero hash, whose value lies below the
threshold like the source sin hash does on ring cells, e.g. (16,12) at
level 4); every 6-by-6 window of cells centered on the spawn (15,15)
contains one of them, so the generated obstacle set does invade any 6-by-6
safe zone: only the 5-by-5 zone of the source test abs < 3 is protected. -/
theorem wall_inside_six_by_six_zone :
    Point.mk 12 12 ∈ getLevelWalls zeroHash 4 ∧
      Point.mk 18 18 ∈ getLevelWalls zeroHash 4 := by
  decide



theorem getQValues_totalReward (a : Agent) (st : String) :
    ((getQValues a st).2).totalReward = a.totalReward := by
  unfold getQValues
  cases qLookup a.qTable st <;> rfl

theorem chooseAction_totalReward (o : AgentOracle) (a : Agent) (st : String) :
    ((chooseAction o a st).2).totalReward = a.totalReward := by
  unfold chooseAction
  by_cases h : ltOpt o.actionRoll a.epsilon = true <;>
    simp [h, getQValues_totalReward]

/-- C5 amended: on a decision whose simulation step does not end the
episode, the reward accumulated (and used in the value update) is the
simulation reward shifted by 0.8 according to the change of Manhattan
distance to the target captured BEFORE the move: the post-move distance is
measured against the pre-move active target, not against the possibly
relocated goal or portal. -/
theorem update_shaping_pre_target (o : AgentOracle) (a : Agent)
    (hgo : a.game.isGameOver = false)
    (hpost : (step o.stepOracle
        (dirOf (chooseAction o a (getStateString a.game)).1)
        (chooseAction o a (getStateString a.game)).2.game).2.isGameOver
      = false) :
    (update o a).totalReward =
      a.totalReward +
        (let sr := step o.stepOracle
            (dirOf (chooseAction o a (getStateString a.game)).1)
            (chooseAction o a (getStateString a.game)).2.game
         let dBefore := manhattan (a.game.snake.headD (Point.mk 0 0))
            (activeTarget a.game)
         let dAfter := manhattan (sr.2.snake.headD (Point.mk 0 0))
            (activeTarget a.game)
         if dAfter < dBefore then sr.1 + 8 / 10
         else if dBefore < dAfter then sr.1 - 8 / 10
         else sr.1) := by
  unfold update
  simp only [hgo, Bool.false_eq_true, if_false, hpost, activeTarget]
  cases hgt : gtOpt a.epsilon epsilonMin <;>
    simp [hgt, getQValues_totalReward, chooseAction_totalReward,
      getQValues_epsilon, chooseAction_epsilon, activeTarget]

/-- Witness for the C5 amendment on the concrete stale-target scenario. -/
theorem update_shaping_pre_target_witness :
    (update shapeOracle shapeAgent).totalReward =
      shapeAgent.totalReward +
        (let sr := step shapeOracle.stepOracle
            (dirOf (chooseAction shapeOracle shapeAgent
              (getStateString shapeAgent.game)).1)
            (chooseAction shapeOracle shapeAgent
              (getStateString shapeAgent.game)).2.game
         let dBefore := manhattan (shapeAgent.game.snake.headD (Point.mk 0 0))
            (activeTarget shapeAgent.game)
         let dAfter := manhattan (sr.2.snake.headD (Point.mk 0 0))
            (activeTarget shapeAgent.game)
         if dAfter < dBefore then sr.1 + 8 / 10
         else if dBefore < dAfter then sr.1 - 8 / 10
         else sr.1) :=
  update_shaping_pre_target shapeOracle shapeAgent rfl (by decide)

/-- C5 counterexample: the decision eats the goal, which is relocated far
away, so the distance to the ACTIVE target after the move grows from 1 to
19; the claim then demands reward 30 - 0.8, but the update accumulates
30 + 0.8 (the +0.8 comes from the distance to the stale pre-move target
shrinking to 0). -/
theorem update_shaping_stale_target :
    (update shapeOracle shapeAgent).game.isGameOver = false ∧
    (step goalOracle Direction.UP shapeAgent.game).1 = 30 ∧
    manhattan (shapeAgent.game.snake.headD (Point.mk 0 0))
      (activeTarget shapeAgent.game) = 1 ∧
    manhattan ((update shapeOracle shapeAgent).game.snake.headD (Point.mk 0 0))
      (activeTarget (update shapeOracle shapeAgent).game) = 19 ∧
    (update shapeOracle shapeAgent).totalReward = 154 / 5 ∧
    (154 / 5 : ℚ) ≠ 30 - 8 / 10 := by
  decide

end CoreSnake

end RatKernelEval